import Mathlib

/-!
Shallow embedding of the OBD-II telemetry repository (sensor acquisition loop
in `cli_obd_loop.py` / `main.py`, trip analytics and vehicle-state
classification in `api_server.py`).  Python floats are modelled as rationals
(ℚ), Python `None` as `Option.none`.  Python's `round(x, n)` (round half to
even on the scaled value) is modelled exactly on ℚ; `int(x)` is truncation
toward zero.  `math.sin` is transcendental, so the definitions that use it are
parameterised over an arbitrary wave function `s : ℚ → ℚ`; every property
proved below holds for all such `s`, in particular for the real sine.
-/

namespace Obd

/-- Python `round` to an integer: round half to even (banker's rounding). -/
def roundHalfEven (x : ℚ) : ℤ :=
  let f : ℤ := ⌊x⌋
  let frac : ℚ := x - f
  if frac < 1/2 then f
  else if 1/2 < frac then f + 1
  else if f % 2 = 0 then f else f + 1

/-- Python `round(x, n)`: round `x` to `n` decimal places, half to even. -/
def roundTo (n : ℕ) (x : ℚ) : ℚ :=
  (roundHalfEven (x * 10 ^ n) : ℚ) / 10 ^ n

/-- Python `int(x)`: truncation toward zero. -/
def truncInt (x : ℚ) : ℤ :=
  if 0 ≤ x then ⌊x⌋ else ⌈x⌉

/-- One stored sensor reading (`ReadingModel` in `models.py`, the row shape
consumed by `api_server.py`).  Timestamps are modelled as integer seconds;
the code stores ISO-8601 strings and compares them as parsed instants. -/
structure Reading where
  timestamp : ℤ
  rpm : Option ℤ
  speed_mph : Option ℚ
  coolant_temp_f : Option ℚ
  throttle_pct : Option ℚ
  load_pct : Option ℚ
  maf_gps : Option ℚ
deriving DecidableEq

/-- The six raw per-signal query results inside `read_obd_snapshot`
(`cli_obd_loop.py`): each is the magnitude extracted from `safe_query` of the
corresponding PID, or `none` when the query failed, returned a null response,
or the magnitude could not be extracted. -/
structure RawQueries where
  rpm : Option ℚ
  speed : Option ℚ
  coolant : Option ℚ
  throttle : Option ℚ
  load : Option ℚ
  maf : Option ℚ
deriving DecidableEq

/-- The snapshot dictionary built by `read_obd_snapshot` /
`_generate_fake_snapshot` in `cli_obd_loop.py`. -/
structure Snapshot where
  timestamp : String
  rpm : Option ℤ
  speed_mph : Option ℚ
  coolant_temp_f : Option ℚ
  throttle_pct : Option ℚ
  load_pct : Option ℚ
  maf_gps : Option ℚ
deriving DecidableEq

/-- Embeds `read_obd_snapshot` (`cli_obd_loop.py`, lines 44-158), live-connection
branch, given the six raw query results: each present raw value is normalized
(speed km/h → mph by factor 0.621371 rounded to 1 decimal, coolant °C → °F by
`c*9/5+32` rounded to 1 decimal, throttle/load percent rounded to 1 decimal,
MAF g/s rounded to 2 decimals, rpm truncated to an integer), each absent raw
value stays `none`; the timestamp is the current UTC time `now`. -/
def read_obd_snapshot (now : String) (q : RawQueries) : Snapshot where
  timestamp := now
  rpm := q.rpm.map truncInt
  speed_mph := q.speed.map (fun kmh => roundTo 1 (kmh * (621371/1000000)))
  coolant_temp_f := q.coolant.map (fun c => roundTo 1 (c * 9 / 5 + 32))
  throttle_pct := q.throttle.map (fun v => roundTo 1 v)
  load_pct := q.load.map (fun v => roundTo 1 v)
  maf_gps := q.maf.map (fun v => roundTo 2 v)

/-- Embeds `_generate_fake_snapshot` (`cli_obd_loop.py`, lines 165-202).  The code
reads the wall clock `t = time.time()` for the sine phases and the wall clock
again for the timestamp string; both are inputs here, and the wave function
`s` stands for `math.sin`. -/
def generate_fake_snapshot (s : ℚ → ℚ) (t : ℚ) (now : String) : Snapshot where
  timestamp := now
  rpm := some (truncInt (925 + 175 * s (t * (5/10))))
  speed_mph := some (roundTo 1 (225/10 + 225/10 * s (t * (2/10))))
  coolant_temp_f := some (roundTo 1 (185 + 5 * s (t * (1/10))))
  throttle_pct := some (roundTo 1 (125/10 + 125/10 * s (t * (7/10))))
  load_pct := some (roundTo 1 (15 + 10 * s (t * (7/10))))
  maf_gps := some (roundTo 2 (5 + 3 * s (t * (5/10))))

/-- The reading dictionary produced by `generate_fake_reading` in `main.py`. -/
structure FakeReading where
  timestamp : String
  rpm : ℤ
  coolant_temp_f : ℚ
  vehicle_speed_mph : ℚ
  throttle_position_pct : ℚ
  engine_load_pct : ℚ
  timing_advance_deg : ℚ
deriving DecidableEq

/-- Embeds `generate_fake_reading` (`main.py`, lines 95-116).  The sensor fields are
sine waves of the `tick` argument; the `timestamp` field is
`datetime.now(timezone.utc)`, i.e. the wall clock `now`, not a function of
`tick`.  The wave function `s` stands for `math.sin`. -/
def generate_fake_reading (s : ℚ → ℚ) (tick : ℚ) (now : String) : FakeReading where
  timestamp := now
  rpm := truncInt (750 + 350 * (1 + s (tick / 2)))
  coolant_temp_f := roundTo 1 (183 + 4 * s (tick / 5))
  vehicle_speed_mph := roundTo 1 (5 + 20 * (1 + s (tick / 4)))
  throttle_position_pct := roundTo 1 (12 + 8 * (1 + s (tick / 3)))
  engine_load_pct := roundTo 1 (35 + 25 * (1 + s (tick / (35/10))))
  timing_advance_deg := roundTo 1 (-5 + 12 * s (tick / 6))

/-- Embeds `maf_values` in `trip_summary` (`api_server.py`, line 597): the present
MAF samples of the trip readings. -/
def maf_values (rs : List Reading) : List ℚ :=
  rs.filterMap (fun r => r.maf_gps)

/-- Embeds `total_air_mass_g` in `trip_summary` (line 605): sum of the present MAF
samples, i.e. grams of air at one sample per second. -/
def total_air_mass_g (rs : List Reading) : ℚ :=
  (maf_values rs).sum

/-- Stoichiometric air-fuel ratio for gasoline (`AFR = 14.7`, line 608). -/
def AFR : ℚ := 147/10

/-- Gasoline density in g/mL (`gasoline_density = 0.74`, line 615). -/
def gasoline_density : ℚ := 74/100

/-- Millilitres per US gallon (`3785.41`, line 619). -/
def ml_per_gallon : ℚ := 378541/100

/-- Embeds `fuel_mass_g` in `trip_summary` (line 611). -/
def fuel_mass_g (rs : List Reading) : ℚ :=
  total_air_mass_g rs / AFR

/-- Embeds `fuel_volume_ml` in `trip_summary` (line 616). -/
def fuel_volume_ml (rs : List Reading) : ℚ :=
  fuel_mass_g rs / gasoline_density

/-- Embeds `fuel_used_gallons` as computed in the MAF branch of `trip_summary`
(line 619): the fuel volume converted to gallons, rounded to 3 decimals. -/
def fuel_gallons_rounded (rs : List Reading) : ℚ :=
  roundTo 3 (fuel_volume_ml rs / ml_per_gallon)

/-- The distance loop of `trip_summary` (lines 576-583): sum
`speed_mph * (1/3600)` over readings with a present speed (absent speeds
contribute nothing), rounded to 2 decimals. -/
def total_distance_miles_calc (rs : List Reading) : ℚ :=
  roundTo 2 (rs.foldl
    (fun acc r =>
      match r.speed_mph with
      | some v => acc + v * (1 / 3600)
      | none => acc)
    0)

/-- Embeds `round(sum(xs)/len(xs), 1) if xs else None` — the average pattern used
for speed and throttle statistics in `trip_summary`. -/
def average1 (xs : List ℚ) : Option ℚ :=
  match xs with
  | [] => none
  | _ => some (roundTo 1 (xs.sum / xs.length))

/-- The note text set when no MAF samples exist (line 625). -/
def fuel_note_text : String :=
  "MAF data not available - fuel consumption could not be estimated"

/-- The trip-summary dictionary returned on the success path of
`trip_summary` (lines 631-645). -/
structure TripSummary where
  trip_start : ℤ
  trip_end : ℤ
  duration_seconds : ℚ
  total_samples : ℕ
  total_distance_miles : ℚ
  average_speed_mph : Option ℚ
  max_speed_mph : Option ℚ
  max_rpm : Option ℤ
  max_coolant_temp_f : Option ℚ
  average_throttle_pct : Option ℚ
  fuel_used_gallons : Option ℚ
  mpg_estimate : Option ℚ
  note : Option String
deriving DecidableEq

/-- The statistics block of `trip_summary` (lines 544-645), applied to the
readings already filtered into the trip window. -/
def compute_summary (s e : ℤ) (trip_readings : List Reading) : TripSummary :=
  let speed_values := trip_readings.filterMap (fun r => r.speed_mph)
  let rpm_values := trip_readings.filterMap (fun r => r.rpm)
  let coolant_values := trip_readings.filterMap (fun r => r.coolant_temp_f)
  let throttle_values := trip_readings.filterMap (fun r => r.throttle_pct)
  let total_distance := total_distance_miles_calc trip_readings
  let fuel : Option ℚ × Option ℚ × Option String :=
    match maf_values trip_readings with
    | [] => (none, none, some fuel_note_text)
    | _ =>
      let g := fuel_gallons_rounded trip_readings
      (some g,
        if 0 < g ∧ 0 < total_distance
          then some (roundTo 1 (total_distance / g)) else none,
        none)
  { trip_start := s
    trip_end := e
    duration_seconds := roundTo 1 ((e : ℚ) - (s : ℚ))
    total_samples := trip_readings.length
    total_distance_miles := total_distance
    average_speed_mph := average1 speed_values
    max_speed_mph := speed_values.max?.map (fun v => roundTo 1 v)
    max_rpm := rpm_values.max?
    max_coolant_temp_f := coolant_values.max?.map (fun v => roundTo 1 v)
    average_throttle_pct := average1 throttle_values
    fuel_used_gallons := fuel.1
    mpg_estimate := fuel.2.1
    note := fuel.2.2 }

/-- The four distinct shapes `trip_summary` can return: no trip recorded yet
(line 512), trip still active (line 515), no readings in the window
(lines 537-542, which echoes the window bounds), or a full summary. -/
inductive TripResult where
  | noTrip : TripResult
  | stillActive : TripResult
  | noData (trip_start trip_end : ℤ) : TripResult
  | summary (sm : TripSummary) : TripResult
deriving DecidableEq

/-- The window filter of `trip_summary` (line 530):
`trip_start_time <= reading_time <= trip_end_time`, both ends inclusive. -/
def inRange (s e : ℤ) (r : Reading) : Bool :=
  decide (s ≤ r.timestamp) && decide (r.timestamp ≤ e)

/-- Embeds `trip_summary` (`api_server.py`, lines 479-645) as a function of the
module-level trip bracket and the stored readings. -/
def trip_summary (trip_start_time trip_end_time : Option ℤ)
    (all_readings : List Reading) : TripResult :=
  match trip_start_time with
  | none => TripResult.noTrip
  | some s =>
    match trip_end_time with
    | none => TripResult.stillActive
    | some e =>
      let trip_readings := all_readings.filter (inRange s e)
      match trip_readings with
      | [] => TripResult.noData s e
      | _ => TripResult.summary (compute_summary s e trip_readings)

/-- The interpreted states returned by `get_vehicle_state`
(`api_server.py`, lines 336-407). -/
structure VehicleState where
  is_moving : Bool
  engine_temp_status : String
  throttle_activity : String
deriving DecidableEq

/-- Embeds `get_vehicle_state` (lines 364-394) applied to the latest reading:
`is_moving` defaults to `False` and becomes `speed > 1.0` when speed is
present; the temperature and throttle bands default to `"unknown"`. -/
def get_vehicle_state (latest : Reading) : VehicleState where
  is_moving :=
    match latest.speed_mph with
    | none => false
    | some v => decide (1 < v)
  engine_temp_status :=
    match latest.coolant_temp_f with
    | none => "unknown"
    | some t => if t < 140 then "cool" else if t ≤ 220 then "normal" else "hot"
  throttle_activity :=
    match latest.throttle_pct with
    | none => "unknown"
    | some p => if p < 5 then "idle" else if p ≤ 30 then "light" else "high"

/-- Observable actions of one iteration of the `while True` loop in
`main` (`cli_obd_loop.py`, lines 307-370). -/
inductive LoopAction where
  | emitReading : LoopAction
  | closeConn : LoopAction
  | sleepBackoff : LoopAction
  | connectAttempt : LoopAction
deriving DecidableEq

/-- The loop-carried state of `main`: the `consecutive_failures` counter and
the current connection handle (`none` = simulation mode). -/
structure LoopState where
  consecutive_failures : ℕ
  conn : Option ℕ
deriving DecidableEq

/-- Embeds `max_failures = 5` (`cli_obd_loop.py`, line 309). -/
def max_failures : ℕ := 5

/-- One iteration of the acquisition loop (`cli_obd_loop.py`, lines 312-370).
`tickFails` says whether `read_obd_snapshot`/emission raised;
`reconnectResult` is the handle `connect_to_obd()` would return if a
reconnect happens this tick.  On success the reading is emitted and the
counter resets; on failure the counter increments, and once it reaches
`max_failures` the old handle is closed (if any), the loop sleeps 2 s, one
reconnect is attempted, and the counter resets. -/
def loop_tick (st : LoopState) (tickFails : Bool)
    (reconnectResult : Option ℕ) : LoopState × List LoopAction :=
  if tickFails then
    let c := st.consecutive_failures + 1
    if max_failures ≤ c then
      (⟨0, reconnectResult⟩,
        (match st.conn with
          | some _ => [LoopAction.closeConn]
          | none => [])
          ++ [LoopAction.sleepBackoff, LoopAction.connectAttempt])
    else
      ({ st with consecutive_failures := c }, [])
  else
    ({ st with consecutive_failures := 0 }, [LoopAction.emitReading])

/-- Iterate `loop_tick` over a sequence of tick outcomes. -/
def loop_run (st : LoopState) : List (Bool × Option ℕ) → LoopState
  | [] => st
  | (f, r) :: rest => loop_run (loop_tick st f r).1 rest

/-- The C1 scenario: 10 samples at 1 Hz (timestamps 0–9 s), each with
`speed_mph = 30` and `maf_gps = 5`, all other sensor fields absent. -/
def c1_readings : List Reading :=
  [⟨0, none, some 30, none, none, none, some 5⟩,
   ⟨1, none, some 30, none, none, none, some 5⟩,
   ⟨2, none, some 30, none, none, none, some 5⟩,
   ⟨3, none, some 30, none, none, none, some 5⟩,
   ⟨4, none, some 30, none, none, none, some 5⟩,
   ⟨5, none, some 30, none, none, none, some 5⟩,
   ⟨6, none, some 30, none, none, none, some 5⟩,
   ⟨7, none, some 30, none, none, none, some 5⟩,
   ⟨8, none, some 30, none, none, none, some 5⟩,
   ⟨9, none, some 30, none, none, none, some 5⟩]

/-- Spec §4.1: speed is converted km/h → mph with factor 0.621371 and rounded
to 1 decimal. -/
def spec_speed_to_mph (kmh : ℚ) : ℚ := roundTo 1 (kmh * (621371/1000000))

/-- Spec §4.1: temperature is converted °C → °F by `f = c*9/5 + 32` and
rounded to 1 decimal. -/
def spec_celsius_to_f (c : ℚ) : ℚ := roundTo 1 (c * 9 / 5 + 32)

/-- Spec §4.1: percent fields pass through rounded to 1 decimal. -/
def spec_percent_passthrough (v : ℚ) : ℚ := roundTo 1 v

/-- Spec §4.1: mass flow passes through in g/s rounded to 2 decimals. -/
def spec_maf_passthrough (v : ℚ) : ℚ := roundTo 2 v

/-- Each tick of `loop_tick` keeps the stored failure counter at most 4:
a failing tick either increments below the threshold 5 or triggers the
reconnect branch which resets it to 0, and a successful tick resets it. -/
theorem loop_tick_counter_le (st : LoopState) (f : Bool) (r : Option ℕ)
    (h : st.consecutive_failures ≤ 4) :
    (loop_tick st f r).1.consecutive_failures ≤ 4 := by
  cases f with
  | false => simp [loop_tick]
  | true =>
    by_cases h5 : max_failures ≤ st.consecutive_failures + 1
    · simp [loop_tick, h5]
    · simp only [loop_tick, if_true, if_neg h5]
      simp only [max_failures] at h5
      omega

/-- The stored failure counter stays at most 4 along any run of the loop. -/
theorem loop_run_counter_le (inputs : List (Bool × Option ℕ)) (st : LoopState)
    (h : st.consecutive_failures ≤ 4) :
    (loop_run st inputs).consecutive_failures ≤ 4 := by
  induction inputs generalizing st with
  | nil => simpa [loop_run] using h
  | cons p rest ih =>
    obtain ⟨f, r⟩ := p
    simpa [loop_run] using ih _ (loop_tick_counter_le st f r h)

/-- C5: over a live connection, a failed per-signal query (`none` raw result)
yields `none` for exactly that field of the snapshot: every output field is a
function of its own raw query result alone (so the other fields keep their
values), a `none` raw result makes that one field `none`, and the snapshot is
still produced — `read_obd_snapshot` is total, so no failure is surfaced as
an error. -/
theorem C5_per_field_failure_isolated :
    ∀ (q q' : RawQueries) (now : String),
      ((q.rpm = q'.rpm →
          (read_obd_snapshot now q).rpm = (read_obd_snapshot now q').rpm) ∧
       (q.speed = q'.speed →
          (read_obd_snapshot now q).speed_mph = (read_obd_snapshot now q').speed_mph) ∧
       (q.coolant = q'.coolant →
          (read_obd_snapshot now q).coolant_temp_f = (read_obd_snapshot now q').coolant_temp_f) ∧
       (q.throttle = q'.throttle →
          (read_obd_snapshot now q).throttle_pct = (read_obd_snapshot now q').throttle_pct) ∧
       (q.load = q'.load →
          (read_obd_snapshot now q).load_pct = (read_obd_snapshot now q').load_pct) ∧
       (q.maf = q'.maf →
          (read_obd_snapshot now q).maf_gps = (read_obd_snapshot now q').maf_gps)) ∧
      ((q.rpm = none → (read_obd_snapshot now q).rpm = none) ∧
       (q.speed = none → (read_obd_snapshot now q).speed_mph = none) ∧
       (q.coolant = none → (read_obd_snapshot now q).coolant_temp_f = none) ∧
       (q.throttle = none → (read_obd_snapshot now q).throttle_pct = none) ∧
       (q.load = none → (read_obd_snapshot now q).load_pct = none) ∧
       (q.maf = none → (read_obd_snapshot now q).maf_gps = none)) := by
  intro q q' now
  refine ⟨⟨?_, ?_, ?_, ?_, ?_, ?_⟩, ⟨?_, ?_, ?_, ?_, ?_, ?_⟩⟩ <;>
    intro h <;> simp [read_obd_snapshot, h]

/-- C5 witness: with all signals answering 1 except a failed speed query, the
snapshot keeps the five other fields and only `speed_mph` is `none`. -/
theorem C5_per_field_failure_isolated_witness :
    (⟨some 1, some 1, some 1, some 1, some 1, some 1⟩ : RawQueries).speed = some 1 ∧
    (read_obd_snapshot "t" ⟨some 1, none, some 1, some 1, some 1, some 1⟩).speed_mph = none ∧
    (read_obd_snapshot "t" ⟨some 1, none, some 1, some 1, some 1, some 1⟩).maf_gps =
      (read_obd_snapshot "t" ⟨some 1, some 1, some 1, some 1, some 1, some 1⟩).maf_gps := by
  refine ⟨rfl, ?_, ?_⟩
  · exact (C5_per_field_failure_isolated
      ⟨some 1, none, some 1, some 1, some 1, some 1⟩
      ⟨some 1, none, some 1, some 1, some 1, some 1⟩ "t").2.2.1 rfl
  · exact (C5_per_field_failure_isolated
      ⟨some 1, none, some 1, some 1, some 1, some 1⟩
      ⟨some 1, some 1, some 1, some 1, some 1, some 1⟩ "t").1.2.2.2.2.2 rfl

/-- C6: each successfully retrieved raw value is normalized exactly as the
spec formulas say — km/h → mph by factor 0.621371 rounded to 1 decimal,
°C → °F by `c*9/5+32` rounded to 1 decimal, throttle/load percent rounded to
1 decimal, MAF g/s rounded to 2 decimals, rpm truncated to an integer — and
in particular a raw speed of 100 km/h normalizes to 62.1 mph. -/
theorem C6_unit_normalization :
    ∀ (q : RawQueries) (now : String),
      ((read_obd_snapshot now q).speed_mph = q.speed.map spec_speed_to_mph ∧
       (read_obd_snapshot now q).coolant_temp_f = q.coolant.map spec_celsius_to_f ∧
       (read_obd_snapshot now q).throttle_pct = q.throttle.map spec_percent_passthrough ∧
       (read_obd_snapshot now q).load_pct = q.load.map spec_percent_passthrough ∧
       (read_obd_snapshot now q).maf_gps = q.maf.map spec_maf_passthrough ∧
       (read_obd_snapshot now q).rpm = q.rpm.map truncInt) ∧
      (read_obd_snapshot now { q with speed := some 100 }).speed_mph = some (621/10) := by
  intro q now
  refine ⟨⟨rfl, rfl, rfl, rfl, rfl, rfl⟩, ?_⟩
  show some (roundTo 1 (100 * (621371/1000000))) = some (621/10)
  norm_num [roundTo, roundHalfEven]

/-- C8 counterexample: the generator is not a pure function of the phase
alone — the `timestamp` field comes from the wall clock, so two calls with
the same phase 0 but different wall-clock instants give different readings. -/
theorem C8_counterexample :
    generate_fake_reading (fun _ => 0) 0 "2025-01-01T00:00:00" ≠
      generate_fake_reading (fun _ => 0) 0 "2025-01-01T00:00:01" := by
  intro h
  exact absurd (congrArg FakeReading.timestamp h) (by decide)

/-- C8 (amended): for any wave function, every sensor field of the generated
reading (and of the simulated snapshot in `cli_obd_loop.py`) is a function of
the phase alone; only the `timestamp` field depends on the wall clock. -/
theorem C8_sensor_fields_deterministic :
    ∀ (s : ℚ → ℚ) (tick : ℚ) (n1 n2 : String),
      ((generate_fake_reading s tick n1).rpm = (generate_fake_reading s tick n2).rpm ∧
       (generate_fake_reading s tick n1).coolant_temp_f =
         (generate_fake_reading s tick n2).coolant_temp_f ∧
       (generate_fake_reading s tick n1).vehicle_speed_mph =
         (generate_fake_reading s tick n2).vehicle_speed_mph ∧
       (generate_fake_reading s tick n1).throttle_position_pct =
         (generate_fake_reading s tick n2).throttle_position_pct ∧
       (generate_fake_reading s tick n1).engine_load_pct =
         (generate_fake_reading s tick n2).engine_load_pct ∧
       (generate_fake_reading s tick n1).timing_advance_deg =
         (generate_fake_reading s tick n2).timing_advance_deg) ∧
      ((generate_fake_snapshot s tick n1).rpm = (generate_fake_snapshot s tick n2).rpm ∧
       (generate_fake_snapshot s tick n1).speed_mph =
         (generate_fake_snapshot s tick n2).speed_mph ∧
       (generate_fake_snapshot s tick n1).coolant_temp_f =
         (generate_fake_snapshot s tick n2).coolant_temp_f ∧
       (generate_fake_snapshot s tick n1).throttle_pct =
         (generate_fake_snapshot s tick n2).throttle_pct ∧
       (generate_fake_snapshot s tick n1).load_pct =
         (generate_fake_snapshot s tick n2).load_pct ∧
       (generate_fake_snapshot s tick n1).maf_gps =
         (generate_fake_snapshot s tick n2).maf_gps) :=
  fun _ _ _ _ =>
    ⟨⟨rfl, rfl, rfl, rfl, rfl, rfl⟩, ⟨rfl, rfl, rfl, rfl, rfl, rfl⟩⟩

/-- C9: the consecutive-failure counter resets to 0 on every successful tick
(which emits the reading), increments by one on a failing tick while below
the threshold, and on reaching `max_failures = 5` the loop performs exactly
one close–wait–reconnect cycle and resets the counter; along any run from a
fresh counter the stored counter stays below 5, so even the transient value
during a failing tick never exceeds 5. -/
theorem C9_failure_counter_policy :
    (∀ (st : LoopState) (r : Option ℕ),
      loop_tick st false r =
        ({ st with consecutive_failures := 0 }, [LoopAction.emitReading])) ∧
    (∀ (st : LoopState) (r : Option ℕ),
      st.consecutive_failures + 1 < max_failures →
      loop_tick st true r =
        ({ st with consecutive_failures := st.consecutive_failures + 1 }, [])) ∧
    (∀ (h : ℕ) (r : Option ℕ),
      loop_tick ⟨4, some h⟩ true r =
        (⟨0, r⟩, [LoopAction.closeConn, LoopAction.sleepBackoff,
          LoopAction.connectAttempt])) ∧
    (∀ (c0 : Option ℕ) (inputs : List (Bool × Option ℕ)),
      (loop_run ⟨0, c0⟩ inputs).consecutive_failures + 1 ≤ max_failures) := by
  refine ⟨fun st r => by simp [loop_tick], fun st r h => ?_, fun h r => rfl,
    fun c0 inputs => ?_⟩
  · have h5 : ¬ max_failures ≤ st.consecutive_failures + 1 := by omega
    simp [loop_tick, h5]
  · have := loop_run_counter_le inputs ⟨0, c0⟩ (by simp)
    simp only [max_failures]
    omega

/-- C9 witness: a third consecutive failure moves the counter from 2 to 3
with no reconnect; a fifth one from counter 4 closes the handle, waits, and
reconnects with the counter reset; five straight failures leave the stored
counter below the threshold. -/
theorem C9_failure_counter_policy_witness :
    loop_tick ⟨2, some 7⟩ true none = (⟨3, some 7⟩, []) ∧
    loop_tick ⟨4, some 7⟩ true none =
      (⟨0, none⟩, [LoopAction.closeConn, LoopAction.sleepBackoff,
        LoopAction.connectAttempt]) ∧
    (loop_run ⟨0, some 7⟩
        [(true, some 7), (true, some 7), (true, some 7), (true, some 7),
          (true, none)]).consecutive_failures + 1 ≤ max_failures :=
  ⟨C9_failure_counter_policy.2.1 ⟨2, some 7⟩ none (by norm_num [max_failures]),
   C9_failure_counter_policy.2.2.1 7 none,
   C9_failure_counter_policy.2.2.2 (some 7) _⟩

/-- C10: when the latest reading has no speed value the vehicle-state
endpoint reports `is_moving = false` (not an "unknown" state), whereas an
absent coolant temperature or throttle value yields the string
`"unknown"` for the corresponding classification. -/
theorem C10_absent_speed_reports_not_moving :
    ∀ r : Reading,
      (r.speed_mph = none → (get_vehicle_state r).is_moving = false) ∧
      (r.coolant_temp_f = none → (get_vehicle_state r).engine_temp_status = "unknown") ∧
      (r.throttle_pct = none → (get_vehicle_state r).throttle_activity = "unknown") := by
  intro r
  refine ⟨fun h => ?_, fun h => ?_, fun h => ?_⟩ <;> simp [get_vehicle_state, h]

/-- C10 witness: on a reading with every sensor field absent, the endpoint
reports `is_moving = false` but `"unknown"` temperature and throttle. -/
theorem C10_absent_speed_reports_not_moving_witness :
    (get_vehicle_state ⟨0, none, none, none, none, none, none⟩).is_moving = false ∧
    (get_vehicle_state ⟨0, none, none, none, none, none, none⟩).engine_temp_status = "unknown" ∧
    (get_vehicle_state ⟨0, none, none, none, none, none, none⟩).throttle_activity = "unknown" :=
  ⟨(C10_absent_speed_reports_not_moving _).1 rfl,
   (C10_absent_speed_reports_not_moving _).2.1 rfl,
   (C10_absent_speed_reports_not_moving _).2.2 rfl⟩

/-- C7: the vehicle-state classifier maps coolant temperature below 140 °F to
`"cool"`, 140–220 °F inclusive to `"normal"`, above 220 °F to `"hot"` and an
absent value to `"unknown"`; throttle below 5 % to `"idle"`, 5–30 % inclusive
to `"light"`, above 30 % to `"high"` and an absent value to `"unknown"`; and
`is_moving` is true exactly when a present speed exceeds 1.0 mph. -/
theorem C7_vehicle_state_bands :
    ∀ r : Reading,
      (∀ t : ℚ, r.coolant_temp_f = some t →
        ((t < 140 → (get_vehicle_state r).engine_temp_status = "cool") ∧
         (140 ≤ t → t ≤ 220 → (get_vehicle_state r).engine_temp_status = "normal") ∧
         (220 < t → (get_vehicle_state r).engine_temp_status = "hot"))) ∧
      (r.coolant_temp_f = none → (get_vehicle_state r).engine_temp_status = "unknown") ∧
      (∀ p : ℚ, r.throttle_pct = some p →
        ((p < 5 → (get_vehicle_state r).throttle_activity = "idle") ∧
         (5 ≤ p → p ≤ 30 → (get_vehicle_state r).throttle_activity = "light") ∧
         (30 < p → (get_vehicle_state r).throttle_activity = "high"))) ∧
      (r.throttle_pct = none → (get_vehicle_state r).throttle_activity = "unknown") ∧
      ((get_vehicle_state r).is_moving = true ↔ ∃ v : ℚ, r.speed_mph = some v ∧ 1 < v) := by
  intro r
  refine ⟨fun t ht => ⟨fun h1 => ?_, fun h1 h2 => ?_, fun h1 => ?_⟩, fun h => ?_,
    fun p hp => ⟨fun h1 => ?_, fun h1 h2 => ?_, fun h1 => ?_⟩, fun h => ?_, ?_⟩
  · simp [get_vehicle_state, ht, h1]
  · simp [get_vehicle_state, ht, h2, not_lt.mpr h1]
  · have h2 : ¬ t < 140 := by linarith
    simp [get_vehicle_state, ht, h2, not_le.mpr h1]
  · simp [get_vehicle_state, h]
  · simp [get_vehicle_state, hp, h1]
  · simp [get_vehicle_state, hp, h2, not_lt.mpr h1]
  · have h2 : ¬ p < 5 := by linarith
    simp [get_vehicle_state, hp, h2, not_le.mpr h1]
  · simp [get_vehicle_state, h]
  · cases hs : r.speed_mph with
    | none => simp [get_vehicle_state, hs]
    | some v => simp [get_vehicle_state, hs]

/-- C7 witness: the band boundaries — 139.9 °F → cool, 140 °F → normal,
220 °F → normal, 220.1 °F → hot — and a 3 mph reading counts as moving. -/
theorem C7_vehicle_state_bands_witness :
    (get_vehicle_state ⟨0, none, none, some (1399/10), none, none, none⟩).engine_temp_status
      = "cool" ∧
    (get_vehicle_state ⟨0, none, none, some 140, none, none, none⟩).engine_temp_status
      = "normal" ∧
    (get_vehicle_state ⟨0, none, none, some 220, none, none, none⟩).engine_temp_status
      = "normal" ∧
    (get_vehicle_state ⟨0, none, none, some (2201/10), none, none, none⟩).engine_temp_status
      = "hot" ∧
    (get_vehicle_state ⟨0, none, some 3, none, none, none, none⟩).is_moving = true :=
  ⟨(((C7_vehicle_state_bands _).1 (1399/10) rfl).1 (by norm_num)),
   (((C7_vehicle_state_bands _).1 140 rfl).2.1 (by norm_num) (by norm_num)),
   (((C7_vehicle_state_bands _).1 220 rfl).2.1 (by norm_num) (by norm_num)),
   (((C7_vehicle_state_bands _).1 (2201/10) rfl).2.2 (by norm_num)),
   ((C7_vehicle_state_bands _).2.2.2.2.mpr ⟨3, rfl, by norm_num⟩)⟩

/-- C4: analytics on a trip with a start but no end is the distinct
`stillActive` result; analytics on a closed trip whose window contains no
readings is the distinct `noData` result; neither is a `summary`. -/
theorem C4_distinct_error_results :
    (∀ (s : ℤ) (rs : List Reading),
      trip_summary (some s) none rs = TripResult.stillActive) ∧
    (∀ (s e : ℤ) (rs : List Reading),
      (∀ r ∈ rs, inRange s e r = false) →
      trip_summary (some s) (some e) rs = TripResult.noData s e) ∧
    (∀ sm : TripSummary, TripResult.stillActive ≠ TripResult.summary sm) ∧
    (∀ (s e : ℤ) (sm : TripSummary), TripResult.noData s e ≠ TripResult.summary sm) := by
  refine ⟨fun s rs => rfl, fun s e rs h => ?_, fun sm => by simp,
    fun s e sm => by simp⟩
  have hfil : rs.filter (inRange s e) = [] := by
    rw [List.filter_eq_nil_iff]
    intro a ha
    simp [h a ha]
  simp [trip_summary, hfil]

/-- C4 witness: a trip started at 0 with no end is still active, and a trip
over the window [0, 0] with one reading at time 5 has no data. -/
theorem C4_distinct_error_results_witness :
    trip_summary (some 0) none [⟨5, none, none, none, none, none, none⟩]
      = TripResult.stillActive ∧
    trip_summary (some 0) (some 0) [⟨5, none, none, none, none, none, none⟩]
      = TripResult.noData 0 0 :=
  ⟨C4_distinct_error_results.1 0 _,
   C4_distinct_error_results.2.1 0 0 [⟨5, none, none, none, none, none, none⟩]
     (by decide)⟩

/-- C3: when every in-window reading lacks a MAF sample, the trip summary
leaves `fuel_used_gallons` and `mpg_estimate` absent (never 0.0) and carries
the explanatory note. -/
theorem C3_no_maf_means_absent_fuel :
    ∀ (s e : ℤ) (rs : List Reading) (sm : TripSummary),
      trip_summary (some s) (some e) rs = TripResult.summary sm →
      (∀ r ∈ rs, inRange s e r = true → r.maf_gps = none) →
      sm.fuel_used_gallons = none ∧ sm.mpg_estimate = none ∧
        sm.note = some fuel_note_text := by
  intro s e rs sm hsum hmaf
  have hm : maf_values (rs.filter (inRange s e)) = [] := by
    rw [maf_values, List.filterMap_eq_nil_iff]
    intro r hr
    have hmem := List.mem_filter.mp hr
    exact hmaf r hmem.1 hmem.2
  simp only [trip_summary] at hsum
  rcases hfil : rs.filter (inRange s e) with _ | ⟨a, l⟩
  · rw [hfil] at hsum
    cases hsum
  · rw [hfil] at hsum hm
    have hsm : compute_summary s e (a :: l) = sm := by
      simpa using hsum
    subst hsm
    refine ⟨?_, ?_, ?_⟩ <;> simp [compute_summary, hm]

/-- C3 witness: one in-window reading with speed but no MAF gives a summary
with absent fuel and MPG and the explanatory note. -/
theorem C3_no_maf_means_absent_fuel_witness :
    (compute_summary 0 0 [⟨0, none, some 30, none, none, none, none⟩]).fuel_used_gallons
      = none ∧
    (compute_summary 0 0 [⟨0, none, some 30, none, none, none, none⟩]).mpg_estimate
      = none ∧
    (compute_summary 0 0 [⟨0, none, some 30, none, none, none, none⟩]).note
      = some fuel_note_text :=
  C3_no_maf_means_absent_fuel 0 0 [⟨0, none, some 30, none, none, none, none⟩]
    (compute_summary 0 0 [⟨0, none, some 30, none, none, none, none⟩])
    rfl (by decide)

/-- A summary result of `trip_summary` is exactly `compute_summary` applied
to the readings filtered into the trip window. -/
theorem trip_summary_eq_summary {s e : ℤ} {rs : List Reading} {sm : TripSummary}
    (h : trip_summary (some s) (some e) rs = TripResult.summary sm) :
    sm = compute_summary s e (rs.filter (inRange s e)) := by
  simp only [trip_summary] at h
  rcases hfil : rs.filter (inRange s e) with _ | ⟨a, l⟩
  · rw [hfil] at h
    cases h
  · rw [hfil] at h
    simp only [TripResult.summary.injEq] at h
    exact h.symm

/-- The distance field of `compute_summary` is the rounded distance sum. -/
theorem compute_summary_distance (s e : ℤ) (rs : List Reading) :
    (compute_summary s e rs).total_distance_miles = total_distance_miles_calc rs := rfl

/-- With no MAF samples, `compute_summary` leaves fuel and MPG absent. -/
theorem compute_summary_fuel_nil (s e : ℤ) (rs : List Reading)
    (hm : maf_values rs = []) :
    (compute_summary s e rs).fuel_used_gallons = none ∧
      (compute_summary s e rs).mpg_estimate = none := by
  constructor <;> simp [compute_summary, hm]

/-- With at least one MAF sample, `compute_summary` reports the rounded fuel
gallons, and MPG exactly when both rounded fuel and rounded distance are
positive. -/
theorem compute_summary_fuel_cons (s e : ℤ) (rs : List Reading) (m : ℚ)
    (ms : List ℚ) (hm : maf_values rs = m :: ms) :
    (compute_summary s e rs).fuel_used_gallons = some (fuel_gallons_rounded rs) ∧
      (compute_summary s e rs).mpg_estimate =
        (if 0 < fuel_gallons_rounded rs ∧ 0 < total_distance_miles_calc rs
          then some (roundTo 1 (total_distance_miles_calc rs / fuel_gallons_rounded rs))
          else none) := by
  constructor <;> simp [compute_summary, hm]

/-- C2 counterexample: a closed trip holding one reading with
`maf_gps = 100` and no speed yields `fuel_used_gallons = some 0.002`
(present and positive) yet `mpg_estimate = none`, because the rounded
distance is 0 — so presence and positivity of fuel alone do not suffice for
MPG to be computed. -/
theorem C2_counterexample :
    trip_summary (some 0) (some 9) [⟨0, none, none, none, none, none, some 100⟩] =
      TripResult.summary
        { trip_start := 0, trip_end := 9, duration_seconds := 9, total_samples := 1,
          total_distance_miles := 0, average_speed_mph := none, max_speed_mph := none,
          max_rpm := none, max_coolant_temp_f := none, average_throttle_pct := none,
          fuel_used_gallons := some (1/500), mpg_estimate := none, note := none } ∧
      (0 : ℚ) < 1/500 :=
  ⟨by with_unfolding_all rfl, by norm_num⟩

/-- C2 (amended): in every produced trip summary, `mpg_estimate` is present
exactly when `fuel_used_gallons` is present and positive AND
`total_distance_miles` is positive, in which case it equals the ratio of the
(already rounded) distance and fuel fields rounded to 1 decimal; it is
absent in every other case. -/
theorem C2_mpg_needs_positive_distance :
    ∀ (s e : ℤ) (rs : List Reading) (sm : TripSummary),
      trip_summary (some s) (some e) rs = TripResult.summary sm →
      ((sm.fuel_used_gallons = none → sm.mpg_estimate = none) ∧
       (∀ g : ℚ, sm.fuel_used_gallons = some g →
         ((0 < g ∧ 0 < sm.total_distance_miles) →
            sm.mpg_estimate = some (roundTo 1 (sm.total_distance_miles / g))) ∧
         (¬ (0 < g ∧ 0 < sm.total_distance_miles) →
            sm.mpg_estimate = none))) := by
  intro s e rs sm hsum
  have hsm := trip_summary_eq_summary hsum
  subst hsm
  rcases hm : maf_values (rs.filter (inRange s e)) with _ | ⟨m, ms⟩
  · obtain ⟨hf, hmpg⟩ := compute_summary_fuel_nil s e _ hm
    refine ⟨fun _ => hmpg, fun g hg => ?_⟩
    rw [hf] at hg
    exact absurd hg (by simp)
  · obtain ⟨hf, hmpg⟩ := compute_summary_fuel_cons s e _ m ms hm
    refine ⟨fun h0 => ?_, fun g hg => ?_⟩
    · rw [hf] at h0
      exact absurd h0 (by simp)
    · rw [hf] at hg
      obtain rfl : fuel_gallons_rounded (rs.filter (inRange s e)) = g :=
        Option.some.inj hg
      rw [compute_summary_distance, hmpg]
      constructor
      · intro hc
        rw [if_pos hc]
      · intro hc
        rw [if_neg hc]

/-- C2 witness: a trip with one reading carrying both speed 30 and MAF 100
has rounded distance 0.01 and rounded fuel 0.002, so the amended rule yields
`mpg_estimate = round(0.01/0.002, 1) = 5.0`. -/
theorem C2_mpg_needs_positive_distance_witness :
    (compute_summary 0 9
        ([⟨0, none, some 30, none, none, none, some 100⟩].filter (inRange 0 9))).mpg_estimate
      = some 5 := by
  have hd : (compute_summary 0 9
      ([(⟨0, none, some 30, none, none, none, some 100⟩ : Reading)].filter
        (inRange 0 9))).total_distance_miles = 1/100 := by
    with_unfolding_all rfl
  have h := ((C2_mpg_needs_positive_distance 0 9
      [⟨0, none, some 30, none, none, none, some 100⟩] _
      (by with_unfolding_all rfl)).2 (1/500)
      (by with_unfolding_all rfl)).1 ⟨by norm_num, by rw [hd]; norm_num⟩
  rw [hd] at h
  rw [h]
  have : roundTo 1 ((1:ℚ)/100 / (1/500)) = 5 := by with_unfolding_all rfl
  rw [this]

/-- C1 counterexample: on the 10-sample scenario the summary actually
returned has `total_distance_miles = 0.08` (not ≈ 0.0833: the code rounds to
2 decimals), `fuel_used_gallons = 0.001` (not ≈ 0.001216: rounded to
3 decimals), and `mpg_estimate = 80.0` (not ≈ 68.5: the ratio of the two
rounded fields). -/
theorem C1_counterexample :
    trip_summary (some 0) (some 9) c1_readings = TripResult.summary
      { trip_start := 0, trip_end := 9, duration_seconds := 9, total_samples := 10,
        total_distance_miles := 2/25, average_speed_mph := some 30,
        max_speed_mph := some 30, max_rpm := none, max_coolant_temp_f := none,
        average_throttle_pct := none, fuel_used_gallons := some (1/1000),
        mpg_estimate := some 80, note := none } ∧
      ((2/25 : ℚ) ≠ 833/10000 ∧ ((1 : ℚ)/1000) ≠ 1216/1000000 ∧ (80 : ℚ) ≠ 137/2) :=
  ⟨by with_unfolding_all rfl, by norm_num, by norm_num, by norm_num⟩

/-- C1 (amended): on the 10-sample scenario the unrounded intermediates
match the spec — total air mass 50 g and fuel mass 500/147 ≈ 3.401 g — but
the summary fields carry the code's rounding: distance 0.08 (2 decimals),
fuel 0.001 gallons (3 decimals), and MPG 80.0 computed from those rounded
values. -/
theorem C1_trip_scenario :
    total_air_mass_g (c1_readings.filter (inRange 0 9)) = 50 ∧
    fuel_mass_g (c1_readings.filter (inRange 0 9)) = 500/147 ∧
    |fuel_mass_g (c1_readings.filter (inRange 0 9)) - 3401/1000| < 1/1000 ∧
    trip_summary (some 0) (some 9) c1_readings = TripResult.summary
      { trip_start := 0, trip_end := 9, duration_seconds := 9, total_samples := 10,
        total_distance_miles := 2/25, average_speed_mph := some 30,
        max_speed_mph := some 30, max_rpm := none, max_coolant_temp_f := none,
        average_throttle_pct := none, fuel_used_gallons := some (1/1000),
        mpg_estimate := some 80, note := none } := by
  refine ⟨by with_unfolding_all rfl, by with_unfolding_all rfl, ?_, by with_unfolding_all rfl⟩
  have h : fuel_mass_g (c1_readings.filter (inRange 0 9)) = 500/147 := by
    with_unfolding_all rfl
  rw [h]
  rw [abs_sub_lt_iff]
  constructor <;> norm_num

end Obd
